import Mathlib

/-!
Shallow embedding of the authentication and rate-limiting core of the
zeytin (olive) detection backend: `app/auth.py` and `app/rate_limiter.py`.

Python dictionaries returned to callers are modelled as association lists
of string keys and `PyVal` values, so that key deletion (`del d[k]`) is
observable. Machine time (`time.time()`) is modelled as `Rat`. The external
JWT library (`jwt.decode`) is modelled by a caller-supplied decoding
environment `String → DecodeResult` whose three outcomes mirror a
successful decode, `ExpiredSignatureError`, and `JWTError`. The bcrypt
password check (`passlib` `CryptContext.verify`) is modelled by a
caller-supplied `String → String → Bool`, and random key material
(`secrets.token_urlsafe`) by a caller-supplied string.
-/

namespace Zeytin

/-- A Python value appearing in the dictionaries the auth layer returns. -/
inductive PyVal where
  | i : Int → PyVal
  | s : String → PyVal
  | b : Bool → PyVal
  | null : PyVal
deriving DecidableEq

/-- A decoded JWT payload. The source field named `type` (a Lean keyword)
is rendered `typ`; it discriminates access tokens from refresh tokens. -/
structure Payload where
  user_id : Option Int
  username : Option String
  role : Option String
  typ : Option String
deriving DecidableEq

/-- Outcome of `jwt.decode`: success with a payload, `ExpiredSignatureError`,
or `JWTError` (bad signature or malformed token). -/
inductive DecodeResult where
  | ok : Payload → DecodeResult
  | expiredSig : DecodeResult
  | jwtError : DecodeResult
deriving DecidableEq

/-- One row of the `users` table (columns as selected by the auth queries). -/
structure UserRow where
  kullanici_id : Int
  kullanici_adi : String
  email : String
  hashed_password : String
  rol : String
  is_active : Bool
  created_at : String
  last_login : Option String
deriving DecidableEq

/-- One row of the `api_keys` table. `key_id` is autoincrement and never
supplied by the insert, so it is omitted; `api_key` carries the UNIQUE
constraint. -/
structure ApiKeyRow where
  user_id : Int
  api_key : String
  created_at : String
  is_active : Bool
deriving DecidableEq

/-- One row of the `api_usage_logs` table (the columns `authenticate_user`
writes). -/
structure LogRow where
  user_id : Option Int
  endpoint : String
  method : String
  status_code : Int
  ip_address : String
deriving DecidableEq

/-- The relational store as seen by the auth manager. -/
structure DB where
  users : List UserRow
  api_keys : List ApiKeyRow
  api_usage_logs : List LogRow
deriving DecidableEq

/-- AuthManager.verify_token: a blacklisted token is rejected before any
decoding; otherwise the payload is returned on a successful decode and
`none` on an expired signature or any JWT error. -/
def verify_token (blacklisted : List String) (decode : String → DecodeResult)
    (token : String) : Option Payload :=
  if token ∈ blacklisted then none
  else
    match decode token with
    | .ok p => some p
    | .expiredSig => none
    | .jwtError => none

/-- AuthManager.revoke_token: add the token string to the blacklist set. -/
def revoke_token (blacklisted : List String) (token : String) : List String :=
  blacklisted.insert token

/-- AuthManager.get_user_by_id: the selected columns as a Python dict. -/
def get_user_by_id (db : DB) (user_id : Int) : Option (List (String × PyVal)) :=
  (db.users.find? (fun u => u.kullanici_id == user_id)).map (fun u =>
    [("kullanici_id", PyVal.i u.kullanici_id),
     ("kullanici_adi", PyVal.s u.kullanici_adi),
     ("email", PyVal.s u.email),
     ("rol", PyVal.s u.rol),
     ("is_active", PyVal.b u.is_active),
     ("created_at", PyVal.s u.created_at),
     ("last_login", match u.last_login with | some l => PyVal.s l | none => PyVal.null)])

/-- AuthManager.authenticate_user. The SQL lookup matches username OR email
and takes the first row; an inactive user and a failing password check both
return `none`, exactly as a missing user does. On success the login is
logged to `api_usage_logs` and the dict is returned with its
`hashed_password` entry deleted. -/
def authenticate_user (pwdVerify : String → String → Bool) (db : DB)
    (username password : String) : Option (List (String × PyVal)) × DB :=
  match db.users.find? (fun u => u.kullanici_adi == username || u.email == username) with
  | none => (none, db)
  | some u =>
    let user_dict : List (String × PyVal) :=
      [("kullanici_id", PyVal.i u.kullanici_id),
       ("kullanici_adi", PyVal.s u.kullanici_adi),
       ("email", PyVal.s u.email),
       ("hashed_password", PyVal.s u.hashed_password),
       ("rol", PyVal.s u.rol),
       ("is_active", PyVal.b u.is_active)]
    if !u.is_active then (none, db)
    else if !(pwdVerify password u.hashed_password) then (none, db)
    else
      let db2 : DB :=
        { db with api_usage_logs := db.api_usage_logs ++
            [⟨some u.kullanici_id, "/auth/login", "POST", 200, "unknown"⟩] }
      (some (user_dict.eraseP (fun kv => kv.1 == "hashed_password")), db2)

/-- AuthManager.create_user: length validation, role coercion into the
recognized set, duplicate check on username or email, then insert with the
hashed password. The autoincrement user id is the next free index. -/
def create_user (hash : String → String) (now : String) (db : DB)
    (username email password role : String) : Bool × DB :=
  if username.length < 3 ∨ password.length < 8 then (false, db)
  else
    let role2 := if role ∈ ["admin", "premium", "standart"] then role else "standart"
    match db.users.find? (fun u => u.kullanici_adi == username || u.email == email) with
    | some _ => (false, db)
    | none =>
      let uid : Int := (db.users.length : Int) + 1
      (true, { db with users := db.users ++
          [⟨uid, username, email, hash password, role2, true, now, none⟩] })

/-- AuthManager.generate_api_key: gated on the admin and premium roles,
then `INSERT OR REPLACE INTO api_keys`. The only uniqueness constraint the
insert can conflict with is UNIQUE on `api_key`, so any row holding the
same key string is replaced and every other row survives. -/
def generate_api_key (randKey now : String) (db : DB) (user_id : Int) :
    Option String × DB :=
  match db.users.find? (fun u => u.kullanici_id == user_id) with
  | none => (none, db)
  | some u =>
    if !(u.rol == "admin" || u.rol == "premium") then (none, db)
    else
      let api_key := "zeytin_" ++ randKey
      (some api_key,
       { db with api_keys :=
          (db.api_keys.filter (fun r => !(r.api_key == api_key))) ++
          [⟨user_id, api_key, now, true⟩] })

/-- get_current_user (the FastAPI dependency): empty token, failed
verification, missing or falsy user_id, and unknown user each raise a
401; otherwise the user dict is returned. No token-type check occurs. -/
def get_current_user (decode : String → DecodeResult) (blacklisted : List String)
    (db : DB) (token : String) : Except String (List (String × PyVal)) :=
  if token = "" then .error "Token required"
  else
    match verify_token blacklisted decode token with
    | none => .error "Invalid or expired token"
    | some payload =>
      match payload.user_id with
      | none => .error "Invalid token payload"
      | some uid =>
        if uid = 0 then .error "Invalid token payload"
        else
          match get_user_by_id db uid with
          | none => .error "User not found"
          | some u => .ok u

/-! ## Rate limiter (`app/rate_limiter.py`) -/

/-- One endpoint-class entry of `endpoint_limits`: a request count and a
window in seconds. -/
structure LimitCfg where
  requests : Nat
  window : Nat
deriving DecidableEq

/-- The `endpoint_limits` dictionary. The default class comes from the
settings (`RATE_LIMIT_REQUESTS`, `RATE_LIMIT_WINDOW`), passed in here; an
unmapped key falls back to the default entry via `dict.get`. -/
def endpoint_limits (defaultReq defaultWin : Nat) (key : String) : LimitCfg :=
  if key == "/analiz/yukle" then ⟨5, 300⟩
  else if key == "/analiz/baslat" then ⟨10, 600⟩
  else if key == "/auth/giris" then ⟨5, 300⟩
  else ⟨defaultReq, defaultWin⟩

/-- The limiter state: `ip_requests` is the defaultdict of per-IP request
timestamp deques, `ip_blocks` maps an IP to its block-expiry time. -/
structure RLState where
  ip_requests : List (String × List Rat)
  ip_blocks : List (String × Rat)
deriving DecidableEq

/-- Update an association list at a key, inserting at the end when the key
is absent (a Python dict assignment). -/
def aupdate (m : List (String × α)) (k : String) (v : α) : List (String × α) :=
  match m with
  | [] => [(k, v)]
  | (k2, v2) :: rest => if k2 == k then (k2, v) :: rest else (k2, v2) :: aupdate rest k v

/-- Outcome of an admission check: admitted, or an HTTP 429 carrying the
retry_after value from the raised detail. -/
inductive RLResult where
  | admitted : RLResult
  | rateLimited : Int → RLResult
deriving DecidableEq

/-- Python `int()` on a nonnegative-or-negative rational: truncation toward
zero, as `Int.div` of the numerator by the denominator. -/
def pyInt (q : Rat) : Int :=
  Int.tdiv q.num (q.den : Int)

/-- RateLimiter.is_blocked: an IP is blocked while the current time is
strictly before its block-expiry entry. -/
def is_blocked (s : RLState) (ip : String) (t : Rat) : Bool :=
  match s.ip_blocks.lookup ip with
  | some b => decide (t < b)
  | none => false

/-- RateLimiter.check_rate_limit at current time `t`. A blocked IP is
rejected before any counter is touched. Otherwise the endpoint-class limit
is resolved (`endpoint or "default"`, then `dict.get` with the default
fallback), the timestamps older than the window are popped from the front
of the deque in place, and the remaining count is compared to the limit:
at or above it the IP is blocked for 300 seconds and the request rejected
(the eviction of the deque persists); below it the current time is
appended and the request admitted. -/
def check_rate_limit (defaultReq defaultWin : Nat) (s : RLState) (ip : String)
    (endpoint : Option String) (t : Rat) : RLResult × RLState :=
  if is_blocked s ip t then
    (.rateLimited (pyInt (((s.ip_blocks.lookup ip).getD 0) - t)), s)
  else
    let cfg := endpoint_limits defaultReq defaultWin (endpoint.getD "default")
    let reqs := (s.ip_requests.lookup ip).getD []
    let evicted := reqs.dropWhile (fun x => decide (t - x > (cfg.window : Rat)))
    if evicted.length ≥ cfg.requests then
      (.rateLimited 300,
       { ip_requests := aupdate s.ip_requests ip evicted,
         ip_blocks := aupdate s.ip_blocks ip (t + 300) })
    else
      (.admitted, { s with ip_requests := aupdate s.ip_requests ip (evicted ++ [t]) })

/-- The dictionary returned by get_rate_limit_info. -/
structure RateLimitInfo where
  limit : Nat
  remaining : Nat
  reset : Int
  window : Nat
deriving DecidableEq

/-- RateLimiter.get_rate_limit_info at current time `t`. It resolves the
endpoint class the same way as the admission check, pops stale timestamps
from the front of the deque in place (and, via the defaultdict access,
materializes an empty entry for an unseen IP), and reports the limit, the
remaining budget, the reset epoch and the window. -/
def get_rate_limit_info (defaultReq defaultWin : Nat) (s : RLState) (ip : String)
    (endpoint : Option String) (t : Rat) : RateLimitInfo × RLState :=
  let cfg := endpoint_limits defaultReq defaultWin (endpoint.getD "default")
  let reqs := (s.ip_requests.lookup ip).getD []
  let evicted := reqs.dropWhile (fun x => decide (t - x > (cfg.window : Rat)))
  let remaining := cfg.requests - evicted.length
  let reset : Int := if evicted.isEmpty then pyInt t else pyInt (t + (cfg.window : Rat))
  (⟨cfg.requests, remaining, reset, cfg.window⟩,
   { s with ip_requests := aupdate s.ip_requests ip evicted })

/-! ## Association-list lemmas -/

theorem alookup_aupdate_self (m : List (String × α)) (k : String) (v : α) :
    (aupdate m k v).lookup k = some v := by
  induction m with
  | nil => simp [aupdate, List.lookup]
  | cons hd tl ih =>
    obtain ⟨k2, v2⟩ := hd
    by_cases h : k2 = k
    · subst h
      simp [aupdate, List.lookup]
    · have hb : (k2 == k) = false := by simpa using h
      have hb2 : (k == k2) = false := by simpa using fun e => h e.symm
      simp [aupdate, hb, List.lookup, hb2, ih]

theorem alookup_aupdate_ne (m : List (String × α)) (k k3 : String) (v : α)
    (hne : k3 ≠ k) : (aupdate m k v).lookup k3 = m.lookup k3 := by
  induction m with
  | nil =>
    have hb : (k3 == k) = false := by simpa using hne
    simp [aupdate, List.lookup, hb]
  | cons hd tl ih =>
    obtain ⟨k2, v2⟩ := hd
    by_cases h : k2 = k
    · subst h
      have hb : (k3 == k2) = false := by simpa using hne
      simp [aupdate, List.lookup, hb]
    · have hb : (k2 == k) = false := by simpa using h
      by_cases h3 : k3 = k2
      · subst h3
        simp [aupdate, hb, List.lookup]
      · have hb3 : (k3 == k2) = false := by simpa using h3
        simp [aupdate, hb, List.lookup, hb3, ih]

/-! ## Claim C1 -/

/-- A decoding environment holding one valid, unexpired refresh token: the
payload carries `typ = "refresh"` and the user id of an existing user. -/
def c1_decode : String → DecodeResult := fun tok =>
  if tok == "refresh-token" then DecodeResult.ok ⟨some 1, none, none, some "refresh"⟩
  else DecodeResult.jwtError

/-- A user store holding the user the refresh token refers to. -/
def c1_db : DB :=
  ⟨[⟨1, "alice", "a@x.com", "H", "standart", true, "2024", none⟩], [], []⟩

/-- C1: token type isolation fails on the access path. A token whose decoded
payload has type `refresh` and a valid user id, presented to
`get_current_user` (the current-user authorization path built on
`verify_token`), is not rejected with Invalid: neither `verify_token` nor
`get_current_user` inspects the type discriminator, so the refresh token
authenticates the request and the user record is returned. -/
theorem c1_refresh_token_accepted_on_access_path :
    c1_decode "refresh-token" = DecodeResult.ok ⟨some 1, none, none, some "refresh"⟩ ∧
    get_current_user c1_decode [] c1_db "refresh-token" =
      Except.ok [("kullanici_id", PyVal.i 1), ("kullanici_adi", PyVal.s "alice"),
        ("email", PyVal.s "a@x.com"), ("rol", PyVal.s "standart"),
        ("is_active", PyVal.b true), ("created_at", PyVal.s "2024"),
        ("last_login", PyVal.null)] := by
  exact ⟨rfl, rfl⟩

/-! ## Claim C4 -/

/-- C4: revocation permanence. After `revoke_token` has added a token to
the blacklist, `verify_token` on that token returns `none` for every
decoding environment — in particular even when the token decodes
successfully (valid signature, unexpired), because the blacklist is
consulted before decoding. -/
theorem c4_revoked_token_always_invalid (blacklisted : List String)
    (decode : String → DecodeResult) (token : String) :
    verify_token (revoke_token blacklisted token) decode token = none := by
  simp [verify_token, revoke_token, List.mem_insert_iff]

/-! ## Claim C7 -/

/-- A user store holding one premium user with id 1 and no API keys. -/
def c7_db : DB :=
  ⟨[⟨1, "bob", "b@x.com", "H", "premium", true, "2024", none⟩], [], []⟩

/-- C7: the at-most-one-active-API-key invariant fails. For the premium
user 1, two successive `generate_api_key` calls (with distinct random key
material, as `secrets.token_urlsafe` yields) both succeed, and afterwards
the store holds two active API-key rows for that user: the `INSERT OR
REPLACE` can only conflict on the UNIQUE `api_key` column, never on
`user_id`, so the first key is not overwritten. -/
theorem c7_two_active_api_keys :
    (generate_api_key "k1" "2024-01" c7_db 1).1 = some "zeytin_k1" ∧
    (generate_api_key "k2" "2024-02" (generate_api_key "k1" "2024-01" c7_db 1).2 1).1
      = some "zeytin_k2" ∧
    (((generate_api_key "k2" "2024-02" (generate_api_key "k1" "2024-01" c7_db 1).2 1).2).api_keys.filter
        (fun r => r.user_id == 1 && r.is_active)).length = 2 := by
  exact ⟨rfl, rfl, rfl⟩

/-! ## Claim C2 -/

/-- C2: rate-limit boundary with punitive blocking. From any limiter state
in which the IP is not blocked and its sequence, after eviction of
timestamps older than the endpoint class window, already holds at least
the class limit (as it does after the limit was reached by admitted
requests within the window), the next request is rejected with a 429
carrying retry_after 300, the IP is entered in the block map with expiry
current time plus 300 seconds, and from the resulting state every request
from that IP — on any endpoint class — is rejected with the remaining
block time and leaves the state unchanged, until the punitive block
duration has elapsed, after which the block test no longer holds. -/
theorem c2_rate_limit_boundary (dR dW : Nat) (s : RLState) (ip : String)
    (e : Option String) (t : Rat)
    (hnb : is_blocked s ip t = false)
    (hcnt : (((s.ip_requests.lookup ip).getD []).dropWhile
        (fun x => decide (t - x > ((endpoint_limits dR dW (e.getD "default")).window : Rat)))).length
        ≥ (endpoint_limits dR dW (e.getD "default")).requests) :
    (check_rate_limit dR dW s ip e t).1 = RLResult.rateLimited 300 ∧
    ((check_rate_limit dR dW s ip e t).2).ip_blocks.lookup ip = some (t + 300) ∧
    (∀ (e2 : Option String) (t2 : Rat), t2 < t + 300 →
      check_rate_limit dR dW ((check_rate_limit dR dW s ip e t).2) ip e2 t2 =
        (RLResult.rateLimited (pyInt ((t + 300) - t2)),
         (check_rate_limit dR dW s ip e t).2)) ∧
    (∀ t2 : Rat, t + 300 ≤ t2 →
      is_blocked ((check_rate_limit dR dW s ip e t).2) ip t2 = false) := by
  have hstep : check_rate_limit dR dW s ip e t =
      (RLResult.rateLimited 300,
       ⟨aupdate s.ip_requests ip (((s.ip_requests.lookup ip).getD []).dropWhile
          (fun x => decide (t - x > ((endpoint_limits dR dW (e.getD "default")).window : Rat)))),
        aupdate s.ip_blocks ip (t + 300)⟩) := by
    simp [check_rate_limit, hnb, hcnt]
  refine ⟨by rw [hstep], ?_, ?_, ?_⟩
  · rw [hstep]
    exact alookup_aupdate_self _ _ _
  · intro e2 t2 ht2
    rw [hstep]
    have hlk : (aupdate s.ip_blocks ip (t + 300)).lookup ip = some (t + 300) :=
      alookup_aupdate_self _ _ _
    have hb : is_blocked
        ⟨aupdate s.ip_requests ip (((s.ip_requests.lookup ip).getD []).dropWhile
          (fun x => decide (t - x > ((endpoint_limits dR dW (e.getD "default")).window : Rat)))),
         aupdate s.ip_blocks ip (t + 300)⟩ ip t2 = true := by
      simp [is_blocked, hlk, ht2]
    simp [check_rate_limit, hb, hlk]
  · intro t2 ht2
    rw [hstep]
    simp [is_blocked, alookup_aupdate_self, not_lt.mpr ht2]

/-- C2 witness: the `/auth/giris` class (limit 5, window 300) with five
admitted timestamps on record for the IP at time 10; the next request is
rejected, the block entry is set to 310, a request at time 100 on another
endpoint class is rejected with retry 210, and at time 310 the block test
fails. -/
theorem c2_rate_limit_boundary_witness :
    is_blocked ⟨[("1.2.3.4", [0, 0, 0, 0, 0])], []⟩ "1.2.3.4" 10 = false ∧
    ((((⟨[("1.2.3.4", [0, 0, 0, 0, 0])], []⟩ : RLState).ip_requests.lookup "1.2.3.4").getD []).dropWhile
        (fun x => decide ((10 : Rat) - x > ((endpoint_limits 100 3600 ((some "/auth/giris").getD "default")).window : Rat)))).length
      ≥ (endpoint_limits 100 3600 ((some "/auth/giris").getD "default")).requests ∧
    (check_rate_limit 100 3600 ⟨[("1.2.3.4", [0, 0, 0, 0, 0])], []⟩ "1.2.3.4" (some "/auth/giris") 10).1
      = RLResult.rateLimited 300 ∧
    check_rate_limit 100 3600
        ((check_rate_limit 100 3600 ⟨[("1.2.3.4", [0, 0, 0, 0, 0])], []⟩ "1.2.3.4" (some "/auth/giris") 10).2)
        "1.2.3.4" none 100 =
      (RLResult.rateLimited (pyInt (((10 : Rat) + 300) - 100)),
       (check_rate_limit 100 3600 ⟨[("1.2.3.4", [0, 0, 0, 0, 0])], []⟩ "1.2.3.4" (some "/auth/giris") 10).2) ∧
    is_blocked ((check_rate_limit 100 3600 ⟨[("1.2.3.4", [0, 0, 0, 0, 0])], []⟩ "1.2.3.4" (some "/auth/giris") 10).2)
        "1.2.3.4" 310 = false := by
  have h := c2_rate_limit_boundary 100 3600 ⟨[("1.2.3.4", [0, 0, 0, 0, 0])], []⟩
    "1.2.3.4" (some "/auth/giris") 10 (by decide)
    (by simp +decide [endpoint_limits, List.dropWhile_cons, List.lookup])
  exact ⟨by decide, by simp +decide [endpoint_limits, List.dropWhile_cons, List.lookup],
    h.1, h.2.2.1 none 100 (by norm_num), h.2.2.2 310 (by norm_num)⟩

/-! ## Claim C6 -/

/-- C6: window slide. If the IP is not blocked, its recorded sequence
holds at most the class limit of timestamps (as after at most limit-many
admitted requests with no block triggered), and more than the window has
elapsed since the first recorded timestamp, then the next request is
admitted: the stale head (and any further stale timestamps) is evicted
before the count is compared to the limit, and the state then records the
new request time. -/
theorem c6_window_slide (dR dW : Nat) (s : RLState) (ip : String)
    (e : Option String) (t x : Rat) (rest : List Rat)
    (hnb : is_blocked s ip t = false)
    (hreq : (s.ip_requests.lookup ip).getD [] = x :: rest)
    (hlen : rest.length + 1 ≤ (endpoint_limits dR dW (e.getD "default")).requests)
    (hstale : t - x > ((endpoint_limits dR dW (e.getD "default")).window : Rat)) :
    (check_rate_limit dR dW s ip e t).1 = RLResult.admitted ∧
    ((check_rate_limit dR dW s ip e t).2).ip_requests.lookup ip =
      some ((rest.dropWhile
        (fun y => decide (t - y > ((endpoint_limits dR dW (e.getD "default")).window : Rat)))) ++ [t]) := by
  have hdrop : (((s.ip_requests.lookup ip).getD []).dropWhile
      (fun y => decide (t - y > ((endpoint_limits dR dW (e.getD "default")).window : Rat))))
      = rest.dropWhile
        (fun y => decide (t - y > ((endpoint_limits dR dW (e.getD "default")).window : Rat))) := by
    rw [hreq]
    simp [List.dropWhile_cons, hstale]
  have hlt : (rest.dropWhile
      (fun y => decide (t - y > ((endpoint_limits dR dW (e.getD "default")).window : Rat)))).length
      < (endpoint_limits dR dW (e.getD "default")).requests := by
    calc (rest.dropWhile _).length ≤ rest.length :=
          (List.dropWhile_suffix _).sublist.length_le
      _ < rest.length + 1 := Nat.lt_succ_self _
      _ ≤ _ := hlen
  have hstep : check_rate_limit dR dW s ip e t =
      (RLResult.admitted,
       ⟨aupdate s.ip_requests ip
          ((rest.dropWhile
            (fun y => decide (t - y > ((endpoint_limits dR dW (e.getD "default")).window : Rat)))) ++ [t]),
        s.ip_blocks⟩) := by
    simp [check_rate_limit, hnb, Nat.not_le.mpr hlt, hdrop]
  rw [hstep]
  exact ⟨rfl, alookup_aupdate_self _ _ _⟩

/-- C6 witness: the `/auth/giris` class (limit 5, window 300), five
requests recorded at times 0..4, next request at time 400: more than the
window has elapsed since the first timestamp, all five are evicted, the
request is admitted and the sequence becomes the single new timestamp. -/
theorem c6_window_slide_witness :
    is_blocked ⟨[("5.6.7.8", [0, 1, 2, 3, 4])], []⟩ "5.6.7.8" 400 = false ∧
    (((⟨[("5.6.7.8", [0, 1, 2, 3, 4])], []⟩ : RLState).ip_requests.lookup "5.6.7.8").getD []) = 0 :: [1, 2, 3, 4] ∧
    ([(1 : Rat), 2, 3, 4].length + 1 ≤ (endpoint_limits 100 3600 ((some "/auth/giris").getD "default")).requests) ∧
    ((400 : Rat) - 0 > ((endpoint_limits 100 3600 ((some "/auth/giris").getD "default")).window : Rat)) ∧
    (check_rate_limit 100 3600 ⟨[("5.6.7.8", [0, 1, 2, 3, 4])], []⟩ "5.6.7.8" (some "/auth/giris") 400).1
      = RLResult.admitted ∧
    ((check_rate_limit 100 3600 ⟨[("5.6.7.8", [0, 1, 2, 3, 4])], []⟩ "5.6.7.8" (some "/auth/giris") 400).2).ip_requests.lookup "5.6.7.8"
      = some (([(1 : Rat), 2, 3, 4].dropWhile
          (fun y => decide ((400 : Rat) - y > ((endpoint_limits 100 3600 ((some "/auth/giris").getD "default")).window : Rat)))) ++ [400]) := by
  have hep : endpoint_limits 100 3600 ((some "/auth/giris").getD "default") = ⟨5, 300⟩ := rfl
  have h := c6_window_slide 100 3600 ⟨[("5.6.7.8", [0, 1, 2, 3, 4])], []⟩
    "5.6.7.8" (some "/auth/giris") 400 0 [1, 2, 3, 4] (by decide) (by decide)
    (by rw [hep]; norm_num) (by rw [hep]; norm_num)
  exact ⟨by decide, by decide, by rw [hep]; norm_num, by rw [hep]; norm_num, h.1, h.2⟩

/-! ## Claim C3 -/

/-- A limiter state with one recorded timestamp that is stale at query
time 4000 for the default window of 3600 seconds. -/
def c3_state : RLState := ⟨[("9.9.9.9", [0])], []⟩

/-- C3 counterexample: get_rate_limit_info is not a pure query. Querying
the default class at time 4000 on a state whose recorded timestamp 0 is
older than the window pops that timestamp from the deque in place, so the
per-IP request-timestamp map after the call differs from the one before. -/
theorem c3_info_mutates_state :
    ¬ (get_rate_limit_info 100 3600 c3_state "9.9.9.9" none 4000).2 = c3_state := by
  have hs : (get_rate_limit_info 100 3600 c3_state "9.9.9.9" none 4000).2
      = ⟨[("9.9.9.9", [])], []⟩ := by
    simp +decide [get_rate_limit_info, endpoint_limits, List.dropWhile_cons, c3_state,
      List.lookup, aupdate]
  rw [hs]
  decide

/-- C3 amended: get_rate_limit_info returns the limit, remaining budget,
reset epoch and window of the resolved endpoint class, leaves the block
map unchanged and every other IP entry unchanged, and changes the queried
IP entry only by evicting timestamps older than the window: the stored
sequence becomes a suffix of the previous one, so no timestamps are ever
added by the query. -/
theorem c3_info_query_frame (dR dW : Nat) (s : RLState) (ip : String)
    (e : Option String) (t : Rat) (ip2 : String) (hne : ip2 ≠ ip) :
    (get_rate_limit_info dR dW s ip e t).1 =
      ⟨(endpoint_limits dR dW (e.getD "default")).requests,
       (endpoint_limits dR dW (e.getD "default")).requests -
         (((s.ip_requests.lookup ip).getD []).dropWhile
           (fun x => decide (t - x > ((endpoint_limits dR dW (e.getD "default")).window : Rat)))).length,
       (if (((s.ip_requests.lookup ip).getD []).dropWhile
           (fun x => decide (t - x > ((endpoint_limits dR dW (e.getD "default")).window : Rat)))).isEmpty
        then pyInt t else pyInt (t + ((endpoint_limits dR dW (e.getD "default")).window : Rat))),
       (endpoint_limits dR dW (e.getD "default")).window⟩ ∧
    ((get_rate_limit_info dR dW s ip e t).2).ip_blocks = s.ip_blocks ∧
    ((get_rate_limit_info dR dW s ip e t).2).ip_requests.lookup ip2 = s.ip_requests.lookup ip2 ∧
    ((get_rate_limit_info dR dW s ip e t).2).ip_requests.lookup ip =
      some (((s.ip_requests.lookup ip).getD []).dropWhile
        (fun x => decide (t - x > ((endpoint_limits dR dW (e.getD "default")).window : Rat)))) ∧
    (((s.ip_requests.lookup ip).getD []).dropWhile
        (fun x => decide (t - x > ((endpoint_limits dR dW (e.getD "default")).window : Rat))))
      <:+ ((s.ip_requests.lookup ip).getD []) := by
  refine ⟨rfl, rfl, ?_, ?_, List.dropWhile_suffix _⟩
  · exact alookup_aupdate_ne _ _ _ _ hne
  · exact alookup_aupdate_self _ _ _

/-- C3 amended witness: at the concrete state with the stale timestamp,
querying for IP 9.9.9.9 reports a full budget of 100, leaves the block map
and the entry of any other IP (here 8.8.8.8) unchanged, and stores the
evicted (empty) sequence for the queried IP. -/
theorem c3_info_query_frame_witness :
    (get_rate_limit_info 100 3600 c3_state "9.9.9.9" none 4000).1 = ⟨100, 100, 4000, 3600⟩ ∧
    ((get_rate_limit_info 100 3600 c3_state "9.9.9.9" none 4000).2).ip_blocks = c3_state.ip_blocks ∧
    ((get_rate_limit_info 100 3600 c3_state "9.9.9.9" none 4000).2).ip_requests.lookup "8.8.8.8"
      = c3_state.ip_requests.lookup "8.8.8.8" ∧
    ((get_rate_limit_info 100 3600 c3_state "9.9.9.9" none 4000).2).ip_requests.lookup "9.9.9.9"
      = some [] := by
  have h := c3_info_query_frame 100 3600 c3_state "9.9.9.9" none 4000 "8.8.8.8" (by decide)
  refine ⟨?_, h.2.1, h.2.2.1, ?_⟩
  · rw [h.1]
    simp +decide [endpoint_limits, List.dropWhile_cons, c3_state, List.lookup, pyInt]
  · have h4 := h.2.2.2.1
    rw [h4]
    simp +decide [endpoint_limits, List.dropWhile_cons, c3_state, List.lookup]

/-! ## Claim C5 -/

/-- C5: create_user validation and role coercion. A username shorter than
3 characters or a password shorter than 8 fails with the false flag and
leaves the store untouched; with valid lengths, a role outside the
recognized set, and no conflicting username or email, the user is created
and the stored row carries the coerced role `standart` (the role the spec
calls standard) and the hashed password. -/
theorem c5_create_user_validation (hash : String → String) (now : String) (db : DB)
    (username email password role : String) :
    (username.length < 3 ∨ password.length < 8 →
      create_user hash now db username email password role = (false, db)) ∧
    (3 ≤ username.length → 8 ≤ password.length →
      role ∉ (["admin", "premium", "standart"] : List String) →
      db.users.find? (fun u => u.kullanici_adi == username || u.email == email) = none →
      create_user hash now db username email password role =
        (true, { db with users := db.users ++
          [⟨(db.users.length : Int) + 1, username, email, hash password, "standart", true, now, none⟩] })) := by
  constructor
  · intro h
    simp [create_user, h]
  · intro h3 h8 hrole hfind
    have hcond : ¬ (username.length < 3 ∨ password.length < 8) := by
      push_neg
      exact ⟨h3, h8⟩
    simp [create_user, hcond, hrole, hfind]

/-- C5 witness: creating a user with a 2-character username and a
5-character password fails and leaves the empty store unchanged, while
creating a user with valid lengths and the unrecognized role value rootx
stores the role standart. -/
theorem c5_create_user_validation_witness :
    create_user (fun p => "HH" ++ p) "2024" ⟨[], [], []⟩ "ab" "a@b.com" "short" "standart"
      = (false, ⟨[], [], []⟩) ∧
    create_user (fun p => "HH" ++ p) "2024" ⟨[], [], []⟩ "abc" "a@b.com" "password1" "rootx"
      = (true, ⟨[⟨1, "abc", "a@b.com", "HHpassword1", "standart", true, "2024", none⟩], [], []⟩) := by
  have h1 := (c5_create_user_validation (fun p => "HH" ++ p) "2024" ⟨[], [], []⟩
    "ab" "a@b.com" "short" "standart").1 (by decide)
  have h2 := (c5_create_user_validation (fun p => "HH" ++ p) "2024" ⟨[], [], []⟩
    "abc" "a@b.com" "password1" "rootx").2 (by decide) (by decide) (by decide) rfl
  exact ⟨h1, by simpa using h2⟩

/-! ## Claim C9 -/

/-- C9: authentication failure indistinguishability. Whatever the reason
the authentication fails — the lookup by username or email finds no user,
the found user is inactive, or the password check fails — the outcome
returned to the caller is the same value `none`, so the caller cannot
tell which check failed. -/
theorem c9_auth_failures_indistinguishable (pwdVerify : String → String → Bool)
    (db : DB) (username password : String) :
    (db.users.find? (fun u => u.kullanici_adi == username || u.email == username) = none →
      (authenticate_user pwdVerify db username password).1 = none) ∧
    (∀ u, db.users.find? (fun u2 => u2.kullanici_adi == username || u2.email == username) = some u →
      u.is_active = false →
      (authenticate_user pwdVerify db username password).1 = none) ∧
    (∀ u, db.users.find? (fun u2 => u2.kullanici_adi == username || u2.email == username) = some u →
      pwdVerify password u.hashed_password = false →
      (authenticate_user pwdVerify db username password).1 = none) := by
  refine ⟨?_, ?_, ?_⟩
  · intro h
    simp [authenticate_user, h]
  · intro u hfind hinact
    simp [authenticate_user, hfind, hinact]
  · intro u hfind hpwd
    cases ha : u.is_active <;> simp [authenticate_user, hfind, ha, hpwd]

/-- C9 witness: the three failure modes produce the same outcome on
concrete stores — an empty store, a store whose user carol is inactive,
and a store whose user dave is active but fails the password check. -/
theorem c9_auth_failures_indistinguishable_witness :
    (authenticate_user (fun _ _ => true) ⟨[], [], []⟩ "ghost" "pw").1 = none ∧
    (authenticate_user (fun _ _ => true)
      ⟨[⟨1, "carol", "c@x.com", "H", "standart", false, "2024", none⟩], [], []⟩ "carol" "pw").1 = none ∧
    (authenticate_user (fun _ _ => false)
      ⟨[⟨1, "dave", "d@x.com", "H", "standart", true, "2024", none⟩], [], []⟩ "dave" "pw").1 = none := by
  refine ⟨?_, ?_, ?_⟩
  · exact (c9_auth_failures_indistinguishable (fun _ _ => true) ⟨[], [], []⟩ "ghost" "pw").1 rfl
  · exact (c9_auth_failures_indistinguishable (fun _ _ => true)
      ⟨[⟨1, "carol", "c@x.com", "H", "standart", false, "2024", none⟩], [], []⟩ "carol" "pw").2.1
      ⟨1, "carol", "c@x.com", "H", "standart", false, "2024", none⟩ rfl rfl
  · exact (c9_auth_failures_indistinguishable (fun _ _ => false)
      ⟨[⟨1, "dave", "d@x.com", "H", "standart", true, "2024", none⟩], [], []⟩ "dave" "pw").2.2
      ⟨1, "dave", "d@x.com", "H", "standart", true, "2024", none⟩ rfl rfl

/-! ## Claim C10 -/

/-- C10: the user record a successful authentication returns carries no
hashed_password entry: the dict built from the row (which does contain the
hash, read for verification) has that key deleted before it is returned. -/
theorem c10_no_hash_in_returned_user (pwdVerify : String → String → Bool) (db : DB)
    (username password : String) (d : List (String × PyVal))
    (h : (authenticate_user pwdVerify db username password).1 = some d) :
    d.lookup "hashed_password" = none := by
  unfold authenticate_user at h
  cases hf : db.users.find? (fun u => u.kullanici_adi == username || u.email == username) with
  | none =>
    rw [hf] at h
    simp at h
  | some u =>
    rw [hf] at h
    by_cases ha : u.is_active
    · by_cases hp : pwdVerify password u.hashed_password
      · simp [ha, hp] at h
        rw [← h]
        rfl
      · simp [ha, hp] at h
    · simp [ha] at h

/-- C10 witness: authenticating the active user alice with a passing
password check returns her dict, and looking up hashed_password in it
yields nothing. -/
theorem c10_no_hash_in_returned_user_witness :
    List.lookup "hashed_password"
      [("kullanici_id", PyVal.i 1), ("kullanici_adi", PyVal.s "alice"),
       ("email", PyVal.s "a@x.com"), ("rol", PyVal.s "standart"),
       ("is_active", PyVal.b true)] = none := by
  exact c10_no_hash_in_returned_user (fun _ _ => true)
    ⟨[⟨1, "alice", "a@x.com", "H", "standart", true, "2024", none⟩], [], []⟩
    "alice" "pw" _ rfl

end Zeytin
